import Mathlib

/-!
# Shakespeare-bot: the `greeter_server` request lifecycle

A shallow embedding of `src/greeter_server/main.go`.

* Go strings are modelled by `String`; the byte length `len(s)` is
  `String.utf8ByteSize`.  (Protobuf string fields and decoded JSON text are
  valid UTF-8.)
* Go pointers are addresses into an explicit heap of objects.  Every `&T{...}`
  composite literal allocates a fresh object; a field access through a pointer
  that does not address an object of the expected type is a run-time panic.
* A Go `error` value is modelled by the text its `Error()` method returns.
* The effects of a call (heap writes, outbound completion calls, text printed
  on standard output) are threaded through an explicit `State`.
-/

namespace ShakespeareBot

/-! ## Go run-time model -/

/-- A Go `error` value, identified by the text of its `Error()` method. -/
structure GoError where
  Error : String
  deriving DecidableEq, Repr

/-- Go `errors.New(text)`. -/
def errors.New (text : String) : GoError := ⟨text⟩

/-- How a Go function call ends: it returns a value, or it panics. -/
inductive Outcome (α : Type) where
  | ret (a : α)
  | panic (msg : String)
  deriving DecidableEq, Repr

/-- Run-time panic text of a field access through an invalid pointer. -/
def nilDereference : String :=
  "runtime error: invalid memory address or nil pointer dereference"

/-- Run-time panic text of `xs[0]` on an empty slice. -/
def indexOutOfRange : String :=
  "runtime error: index out of range [0] with length 0"

/-! ## Wire messages (package `pb`) and internal types (lines 59-65) -/

/-- Modelled from the spec: the generated package `pb` ("myApp") is not among
the repository sources; the spec gives `AnswerRequest{question: string}`, and
`main.go` reads and writes the field as `Question`. -/
structure pb.GetAnswerRequest where
  Question : String
  deriving DecidableEq, Repr

/-- Modelled from the spec: the generated package `pb` ("myApp") is not among
the repository sources; the spec gives `AnswerResponse{answer: string}`, and
`main.go` reads and writes the field as `Answer`. -/
structure pb.GetAnswerResponse where
  Answer : String
  deriving DecidableEq, Repr

/-- Go `type internalGetAnswerRequest struct { Question string }`. -/
structure internalGetAnswerRequest where
  Question : String
  deriving DecidableEq, Repr

/-- Go `type internalGetAnswerResponse struct { Answer string }`. -/
structure internalGetAnswerResponse where
  Answer : String
  deriving DecidableEq, Repr

/-! ## The completion library (package `openai`), as far as `main.go` uses it

The package `github.com/sashabaranov/go-openai` is a third-party dependency; its
types are modelled by the fields `main.go` touches, its two constants by their
values in that library, and the behaviour of its client is left arbitrary. -/

/-- Library constant `openai.GPT3Dot5Turbo`, the model identifier of line 124. -/
def openai.GPT3Dot5Turbo : String := "gpt-3.5-turbo"

/-- Library constant `openai.ChatMessageRoleUser`, the role of line 127. -/
def openai.ChatMessageRoleUser : String := "user"

/-- `openai.ChatCompletionMessage`: the fields `main.go` sets or reads. -/
structure openai.ChatCompletionMessage where
  Role : String
  Content : String
  deriving DecidableEq, Repr

/-- `openai.ChatCompletionRequest`: the fields `main.go` sets; every other
field keeps its zero value. -/
structure openai.ChatCompletionRequest where
  Model : String
  Messages : List openai.ChatCompletionMessage
  deriving DecidableEq, Repr

/-- `openai.ChatCompletionChoice`: the field `main.go` reads. -/
structure openai.ChatCompletionChoice where
  Message : openai.ChatCompletionMessage
  deriving DecidableEq, Repr

/-- `openai.ChatCompletionResponse`: the field `main.go` reads. -/
structure openai.ChatCompletionResponse where
  Choices : List openai.ChatCompletionChoice
  deriving DecidableEq, Repr

/-- The completion client handle `*openai.Client`, given by what its method
`CreateChatCompletion` returns for a request: the pair `(response, err)`,
where `err = none` is Go `nil`. -/
structure openai.Client where
  CreateChatCompletion :
    openai.ChatCompletionRequest → openai.ChatCompletionResponse × Option GoError

/-! ## Heap and effect state -/

/-- A heap object: one of the four struct types `main.go` allocates or is
handed a pointer to. -/
inductive Obj where
  | pbRequest (r : pb.GetAnswerRequest)
  | pbResponse (r : pb.GetAnswerResponse)
  | internalRequest (r : internalGetAnswerRequest)
  | internalResponse (r : internalGetAnswerResponse)
  deriving DecidableEq, Repr

/-- Everything a request can observe or change: the heap (addresses are list
positions), the outbound completion calls made so far (oldest first), and the
text written to standard output (oldest first). -/
structure State where
  heap : List Obj
  calls : List openai.ChatCompletionRequest
  stdout : List String
  deriving DecidableEq, Repr

/-- Read the object at address `p`, if there is one. -/
def State.load (s : State) (p : Nat) : Option Obj := s.heap[p]?

/-- Overwrite the object at address `p`. -/
def State.store (s : State) (p : Nat) (o : Obj) : State :=
  { s with heap := s.heap.set p o }

/-- Allocate a fresh object; returns the new state and the new address. -/
def State.alloc (s : State) (o : Obj) : State × Nat :=
  ({ s with heap := s.heap ++ [o] }, s.heap.length)

/-! ## Mapper functions (lines 67-93) -/

/-- Go `protoToInternalGetAnswerRequest` (lines 68-72): reads `proto.Question`
and allocates a new `internalGetAnswerRequest` holding it. -/
def protoToInternalGetAnswerRequest (s : State) (proto : Nat) : State × Outcome Nat :=
  match s.load proto with
  | some (.pbRequest r) =>
    let (s1, p) := s.alloc (.internalRequest { Question := r.Question })
    (s1, .ret p)
  | _ => (s, .panic nilDereference)

/-- Go `internalGetAnswerRequestToProto` (lines 75-79). -/
def internalGetAnswerRequestToProto (s : State) (inp : Nat) : State × Outcome Nat :=
  match s.load inp with
  | some (.internalRequest r) =>
    let (s1, p) := s.alloc (.pbRequest { Question := r.Question })
    (s1, .ret p)
  | _ => (s, .panic nilDereference)

/-- Go `protoToInternalGetAnswerResponse` (lines 82-86). -/
def protoToInternalGetAnswerResponse (s : State) (proto : Nat) : State × Outcome Nat :=
  match s.load proto with
  | some (.pbResponse r) =>
    let (s1, p) := s.alloc (.internalResponse { Answer := r.Answer })
    (s1, .ret p)
  | _ => (s, .panic nilDereference)

/-- Go `internalGetAnswerResponseToProto` (lines 89-93). -/
def internalGetAnswerResponseToProto (s : State) (inp : Nat) : State × Outcome Nat :=
  match s.load inp with
  | some (.internalResponse r) =>
    let (s1, p) := s.alloc (.pbResponse { Answer := r.Answer })
    (s1, .ret p)
  | _ => (s, .panic nilDereference)

/-! ## Prompt enrichment (lines 95-97) -/

/-- The right-hand side of the assignment in `enrich` (line 96), as a function
of the current `req.Question`. -/
def enrichedQuestion (question : String) : String :=
  "rewrite " ++ question ++ "in the voice of Shakespeare"

/-- Go `func (req *internalGetAnswerRequest) enrich()` (lines 95-97): overwrites
the `Question` of the request `req` points to. -/
def enrich (s : State) (req : Nat) : State × Outcome Unit :=
  match s.load req with
  | some (.internalRequest r) =>
    (s.store req (.internalRequest { r with Question := enrichedQuestion r.Question }), .ret ())
  | _ => (s, .panic nilDereference)

/-! ## The completion call (lines 116-141) -/

/-- The request literal of lines 123-131, as a function of the `req.Question`
it reads: the fixed model and one user-role message. -/
def chatCompletionRequest (question : String) : openai.ChatCompletionRequest :=
  { Model := openai.GPT3Dot5Turbo,
    Messages := [{ Role := openai.ChatMessageRoleUser, Content := question }] }

/-- Go `sendToChatGPT` (lines 116-141).  Returns the pair `(resp2, err)`; a nil
pointer and a nil error are `none`. -/
def sendToChatGPT (s : State) (req : Nat) (client : openai.Client) :
    State × Outcome (Option Nat × Option GoError) :=
  -- req.enrich()
  match enrich s req with
  | (s1, .panic msg) => (s1, .panic msg)
  | (s1, .ret ()) =>
    -- the argument expression reads req.Question
    match s1.load req with
    | some (.internalRequest r) =>
      let request := chatCompletionRequest r.Question
      -- resp, err := client.CreateChatCompletion(...)
      let s2 : State := { s1 with calls := s1.calls ++ [request] }
      match client.CreateChatCompletion request with
      | (_, some err) =>
        -- fmt.Printf("ChatCompletion error: %v\n", err); return nil, err
        ({ s2 with stdout := s2.stdout ++ ["ChatCompletion error: " ++ err.Error ++ "\n"] },
          .ret (none, some err))
      | (resp, none) =>
        -- resp.Choices[0].Message.Content
        match resp.Choices with
        | [] => (s2, .panic indexOutOfRange)
        | choice :: _ =>
          let (s3, p) := s2.alloc (.internalResponse { Answer := choice.Message.Content })
          (s3, .ret (some p, none))
    | _ => (s1, .panic nilDereference)

/-! ## The RPC handler (lines 48-56) -/

/-- The text of the one error `GetAnswer` constructs (line 52). -/
def answerGenerationFailedText : String := "failed making your text Shakespearean"

/-- Go `func (s *server) GetAnswer(ctx, in)` (lines 48-56).  `client` is the
package-level variable of line 40, `inp` the pointer `in`.  Returns the pair
`(response pointer, error)`. -/
def GetAnswer (client : openai.Client) (s : State) (inp : Nat) :
    State × Outcome (Option Nat × Option GoError) :=
  match protoToInternalGetAnswerRequest s inp with
  | (s1, .panic msg) => (s1, .panic msg)
  | (s1, .ret req) =>
    match sendToChatGPT s1 req client with
    | (s2, .panic msg) => (s2, .panic msg)
    | (s2, .ret (_, some _)) => (s2, .ret (none, some (errors.New answerGenerationFailedText)))
    | (s2, .ret (resp, none)) =>
      match resp with
      | none => (s2, .panic nilDereference)
      | some r =>
        match internalGetAnswerResponseToProto s2 r with
        | (s3, .panic msg) => (s3, .panic msg)
        | (s3, .ret proto) => (s3, .ret (some proto, none))

/-! ## Process start-up (lines 99-112 and 143-157) -/

/-- The process environment: the value of each variable that is set. -/
abbrev Environ := String → Option String

/-- Go `os.Getenv`: the value of the variable, or the empty string when it is
not set. -/
def os.Getenv (environ : Environ) (key : String) : String := (environ key).getD ""

/-- The handle `openai.NewClient(authToken)` builds. -/
structure ClientHandle where
  authToken : String
  deriving DecidableEq, Repr

/-- Library call `openai.NewClient`. -/
def openai.NewClient (authToken : String) : ClientHandle := ⟨authToken⟩

/-- What the process does that the outside can see, in order. -/
inductive Event where
  | dotenvLoad
  | logFatal (msg : String)
  | newClient (authToken : String)
  | listen (network address : String)
  | registerGreeterServer
  | logPrintf (msg : String)
  | serve
  deriving DecidableEq, Repr

/-- What start-up depends on outside the program: the environment of the
process, the value of the `port` flag after `flag.Parse()` (default 50051),
what `godotenv.Load()` does to the environment and whether it reports an error,
whether `net.Listen` succeeds on an address, and what `Serve` returns. -/
structure Host where
  environ : Environ
  port : Int
  dotenvLoad : Environ → Environ × Option GoError
  netListen : String → String → Option GoError
  serve : Option GoError

/-- The state of the starting process: its environment, the package-level
variable `client` (line 40), and the events so far (oldest first). -/
structure Proc where
  environ : Environ
  client : Option ClientHandle
  trace : List Event

/-- How a start-up step ends: it returns, or the process exits with a status. -/
inductive Run (α : Type) where
  | ret (a : α)
  | exit (status : Nat)
  deriving DecidableEq, Repr

/-- Go `log.Fatal` / `log.Fatalf`: log the text, then `os.Exit(1)`. -/
def logFatal {α : Type} (p : Proc) (msg : String) : Proc × Run α :=
  ({ p with trace := p.trace ++ [Event.logFatal msg] }, .exit 1)

/-- Go `setupEnv` (lines 100-112). -/
def setupEnv (h : Host) (p : Proc) : Proc × Run ClientHandle :=
  -- lines 101-106
  let loaded : Proc × Run Unit :=
    if os.Getenv p.environ "environment" ≠ "live" then
      let p1 : Proc := { p with trace := p.trace ++ [Event.dotenvLoad] }
      match h.dotenvLoad p1.environ with
      | (_, some _) => logFatal p1 "could not load the .env!"
      | (environ, none) => ({ p1 with environ := environ }, .ret ())
    else (p, .ret ())
  match loaded with
  | (p2, .exit status) => (p2, .exit status)
  | (p2, .ret ()) =>
    -- lines 107-111
    let GPT_API_KEY := os.Getenv p2.environ "GPT_API_KEY"
    if GPT_API_KEY = "" then logFatal p2 "GPT_API_KEY not set!"
    else
      ({ p2 with trace := p2.trace ++ [Event.newClient GPT_API_KEY] },
        .ret (openai.NewClient GPT_API_KEY))

/-- The process before `main` runs: the environment of the host, `client` nil,
nothing done yet. -/
def Host.start (h : Host) : Proc := { environ := h.environ, client := none, trace := [] }

/-- Go `main` (lines 143-157), with `flag.Parse()` already returned. -/
def main (h : Host) : Proc × Run Unit :=
  -- client = setupEnv()
  match setupEnv h h.start with
  | (p1, .exit status) => (p1, .exit status)
  | (p1, .ret c) =>
    let p2 : Proc := { p1 with client := some c }
    -- lis, err := net.Listen("tcp", fmt.Sprintf(":%d", *port))
    let address := ":" ++ toString h.port
    let p3 : Proc := { p2 with trace := p2.trace ++ [Event.listen "tcp" address] }
    match h.netListen "tcp" address with
    | some err => logFatal p3 ("failed to listen: " ++ err.Error)
    | none =>
      let p4 : Proc :=
        { p3 with trace := p3.trace ++
            [Event.registerGreeterServer, Event.logPrintf "server listening at", Event.serve] }
      match h.serve with
      | some err => logFatal p4 ("failed to serve: " ++ err.Error)
      | none => (p4, .ret ())

/-! ## Intermediate states named in the lemmas -/

/-- The state `sendToChatGPT` reaches once the call has been made: the request
is enriched in place and the call is recorded. -/
def afterCall (s : State) (req : Nat) (question : String) : State :=
  { s.store req (.internalRequest { Question := enrichedQuestion question }) with
    calls := s.calls ++ [chatCompletionRequest (enrichedQuestion question)] }

/-- The state `GetAnswer` reaches once the completion call has been made, from
a state `s` whose wire request holds `question`: the internal copy sits at the
first free address, already enriched, and the call is recorded. -/
def afterRequest (s : State) (question : String) : State :=
  afterCall (s.alloc (.internalRequest { Question := question })).1 s.heap.length question

/-! ## Concrete inputs used by the examples below -/

/-- A heap holding one wire request, with question "Hello", at address 0. -/
def helloState : State :=
  { heap := [.pbRequest { Question := "Hello" }], calls := [], stdout := [] }

/-- A heap holding one internal request, with question "Hello", at address 0. -/
def promptState : State :=
  { heap := [.internalRequest { Question := "Hello" }], calls := [], stdout := [] }

/-- A heap holding one internal response, with answer "Good morrow", at address 0. -/
def answerState : State :=
  { heap := [.internalResponse { Answer := "Good morrow" }], calls := [], stdout := [] }

/-- A heap holding one wire response, with answer "Good morrow", at address 0. -/
def replyState : State :=
  { heap := [.pbResponse { Answer := "Good morrow" }], calls := [], stdout := [] }

/-- A stub client that answers every request with the one choice
"Good morrow". -/
def goodMorrowClient : openai.Client :=
  ⟨fun _ => ({ Choices := [{ Message := { Role := "assistant", Content := "Good morrow" } }] },
    none)⟩

/-- A stub client whose call fails with the given error. -/
def failingClient (e : GoError) : openai.Client := ⟨fun _ => ({ Choices := [] }, some e)⟩

/-- A stub client whose call succeeds with a response holding no choice. -/
def noChoiceClient : openai.Client := ⟨fun _ => ({ Choices := [] }, none)⟩

/-- A host with `environment=live` and no `GPT_API_KEY`. -/
def hostWithoutKey : Host :=
  { environ := fun k => if k = "environment" then some "live" else none,
    port := 50051,
    dotenvLoad := fun e => (e, none),
    netListen := fun _ _ => none,
    serve := none }

/-- A host with `environment=live` and `GPT_API_KEY=sk-test`. -/
def hostWithKey : Host :=
  { environ := fun k =>
      if k = "environment" then some "live"
      else if k = "GPT_API_KEY" then some "sk-test" else none,
    port := 50051,
    dotenvLoad := fun e => (e, none),
    netListen := fun _ _ => none,
    serve := none }

/-! ## Heap lemmas -/

theorem getElem?_append_length_cons {α : Type} (l : List α) (a : α) (t : List α) :
    (l ++ a :: t)[l.length]? = some a := by
  rw [List.getElem?_append_right (Nat.le_refl _)]
  simp

theorem State.load_lt {s : State} {p : Nat} {o : Obj} (h : s.load p = some o) :
    p < s.heap.length := by
  unfold State.load at h
  by_contra hlt
  rw [List.getElem?_eq_none (Nat.le_of_not_lt hlt)] at h
  exact Option.noConfusion h

theorem State.load_alloc_new (s : State) (o : Obj) :
    (s.alloc o).1.load s.heap.length = some o := by
  simp [State.alloc, State.load]

theorem State.load_store_same {s : State} {p : Nat} {x : Obj} (o : Obj)
    (h : s.load p = some x) : (s.store p o).load p = some o := by
  have hlt := State.load_lt h
  simp [State.store, State.load, hlt]

/-! ## What each function does on a valid pointer -/

theorem protoToInternalGetAnswerRequest_eq {s : State} {proto : Nat}
    {r : pb.GetAnswerRequest} (h : s.load proto = some (.pbRequest r)) :
    protoToInternalGetAnswerRequest s proto =
      ((s.alloc (.internalRequest { Question := r.Question })).1, .ret s.heap.length) := by
  simp [protoToInternalGetAnswerRequest, h, State.alloc]

theorem internalGetAnswerRequestToProto_eq {s : State} {inp : Nat}
    {r : internalGetAnswerRequest} (h : s.load inp = some (.internalRequest r)) :
    internalGetAnswerRequestToProto s inp =
      ((s.alloc (.pbRequest { Question := r.Question })).1, .ret s.heap.length) := by
  simp [internalGetAnswerRequestToProto, h, State.alloc]

theorem protoToInternalGetAnswerResponse_eq {s : State} {proto : Nat}
    {r : pb.GetAnswerResponse} (h : s.load proto = some (.pbResponse r)) :
    protoToInternalGetAnswerResponse s proto =
      ((s.alloc (.internalResponse { Answer := r.Answer })).1, .ret s.heap.length) := by
  simp [protoToInternalGetAnswerResponse, h, State.alloc]

theorem internalGetAnswerResponseToProto_eq {s : State} {inp : Nat}
    {r : internalGetAnswerResponse} (h : s.load inp = some (.internalResponse r)) :
    internalGetAnswerResponseToProto s inp =
      ((s.alloc (.pbResponse { Answer := r.Answer })).1, .ret s.heap.length) := by
  simp [internalGetAnswerResponseToProto, h, State.alloc]

theorem enrich_eq {s : State} {req : Nat} {r : internalGetAnswerRequest}
    (h : s.load req = some (.internalRequest r)) :
    enrich s req =
      (s.store req (.internalRequest { Question := enrichedQuestion r.Question }), .ret ()) := by
  simp [enrich, h]

theorem sendToChatGPT_eq {s : State} {req : Nat} {r : internalGetAnswerRequest}
    (client : openai.Client) (h : s.load req = some (.internalRequest r)) :
    sendToChatGPT s req client =
      match client.CreateChatCompletion (chatCompletionRequest (enrichedQuestion r.Question)) with
      | (_, some err) =>
        ({ afterCall s req r.Question with
            stdout := s.stdout ++ ["ChatCompletion error: " ++ err.Error ++ "\n"] },
          .ret (none, some err))
      | (resp, none) =>
        match resp.Choices with
        | [] => (afterCall s req r.Question, .panic indexOutOfRange)
        | choice :: _ =>
          (((afterCall s req r.Question).alloc
              (.internalResponse { Answer := choice.Message.Content })).1,
            .ret (some s.heap.length, none)) := by
  unfold sendToChatGPT
  rw [enrich_eq h]
  simp only [State.load_store_same _ h]
  rcases hc : client.CreateChatCompletion (chatCompletionRequest (enrichedQuestion r.Question))
    with ⟨resp, _ | err⟩
  · rcases hch : resp.Choices with _ | ⟨choice, rest⟩ <;>
      simp [hc, hch, afterCall, State.alloc, State.store]
  · simp [hc, afterCall, State.store]

theorem GetAnswer_eq {s : State} {inp : Nat} {r : pb.GetAnswerRequest}
    (client : openai.Client) (h : s.load inp = some (.pbRequest r)) :
    GetAnswer client s inp =
      match client.CreateChatCompletion (chatCompletionRequest (enrichedQuestion r.Question)) with
      | (_, some err) =>
        ({ afterRequest s r.Question with
            stdout := s.stdout ++ ["ChatCompletion error: " ++ err.Error ++ "\n"] },
          .ret (none, some (errors.New answerGenerationFailedText)))
      | (resp, none) =>
        match resp.Choices with
        | [] => (afterRequest s r.Question, .panic indexOutOfRange)
        | choice :: _ =>
          ((((afterRequest s r.Question).alloc
              (.internalResponse { Answer := choice.Message.Content })).1.alloc
              (.pbResponse { Answer := choice.Message.Content })).1,
            .ret (some (s.heap.length + 2), none)) := by
  unfold GetAnswer
  rw [protoToInternalGetAnswerRequest_eq h]
  have hreq : (s.alloc (.internalRequest { Question := r.Question })).1.load s.heap.length
      = some (.internalRequest { Question := r.Question }) := State.load_alloc_new s _
  simp only [sendToChatGPT_eq client hreq]
  rcases hc : client.CreateChatCompletion (chatCompletionRequest (enrichedQuestion r.Question))
    with ⟨resp, _ | err⟩
  · dsimp only
    rcases resp with ⟨_ | ⟨choice, rest⟩⟩
    · simp [afterRequest]
    · have hget : (s.heap ++ [Obj.internalRequest { Question := enrichedQuestion r.Question },
          Obj.internalResponse { Answer := choice.Message.Content }])[s.heap.length + 1]?
          = some (Obj.internalResponse { Answer := choice.Message.Content }) := by
        rw [List.getElem?_append_right (by omega)]
        simp
      simp [afterRequest, afterCall, State.store, State.alloc, internalGetAnswerResponseToProto,
        State.load, hget]
  · simp [afterRequest, afterCall, State.alloc]

/-! ## String facts about the enrichment -/

theorem utf8ByteSize_append (a b : String) :
    (a ++ b).utf8ByteSize = a.utf8ByteSize + b.utf8ByteSize := by
  cases a with
  | mk as =>
    cases b with
    | mk bs =>
      show String.utf8ByteSize ⟨as ++ bs⟩ = _
      simp only [String.utf8ByteSize]
      induction as with
      | nil => simp [String.utf8ByteSize.go]
      | cons c cs ih => simp [String.utf8ByteSize.go, ih]; omega

theorem enrichedQuestion_utf8ByteSize (q : String) :
    (enrichedQuestion q).utf8ByteSize = q.utf8ByteSize + 35 := by
  have h8 : "rewrite ".utf8ByteSize = 8 := by decide
  have h27 : "in the voice of Shakespeare".utf8ByteSize = 27 := by decide
  simp only [enrichedQuestion, utf8ByteSize_append, h8, h27]
  omega

theorem enrichedQuestion_injective : Function.Injective enrichedQuestion := by
  intro a b h
  simp only [enrichedQuestion] at h
  have h1 := congrArg String.data h
  simp only [String.data_append] at h1
  have h2 := List.append_cancel_left (List.append_cancel_right h1)
  exact String.ext h2

theorem enrichedQuestion_ne_spaced (q : String) :
    "rewrite " ++ q ++ "in the voice of Shakespeare" ≠
      "rewrite " ++ q ++ " in the voice of Shakespeare" := by
  intro h
  have h1 := congrArg String.utf8ByteSize h
  have h27 : "in the voice of Shakespeare".utf8ByteSize = 27 := by decide
  have h28 : " in the voice of Shakespeare".utf8ByteSize = 28 := by decide
  simp only [utf8ByteSize_append, h27, h28] at h1
  omega

/-! ## The claims -/

/-- C1: for every question string `q` (empty or not), `enrich` applied to a
request whose `Question` is `q` returns and leaves the `Question` of that request
equal to exactly `"rewrite " ++ q ++ "in the voice of Shakespeare"`; no space
stands between `q` and `"in"`, so the result differs from the spaced text. -/
theorem C1_enrich_literal_concatenation (s : State) (req : Nat) (q : String)
    (hreq : s.load req = some (.internalRequest { Question := q })) :
    (enrich s req).2 = .ret () ∧
    (enrich s req).1.load req =
      some (.internalRequest { Question := "rewrite " ++ q ++ "in the voice of Shakespeare" }) ∧
    "rewrite " ++ q ++ "in the voice of Shakespeare" ≠
      "rewrite " ++ q ++ " in the voice of Shakespeare" := by
  rw [enrich_eq hreq]
  exact ⟨rfl, State.load_store_same _ hreq, enrichedQuestion_ne_spaced q⟩

/-- Witness of C1 on the request holding "Hello". -/
theorem C1_enrich_literal_concatenation_witness :
    promptState.load 0 = some (.internalRequest { Question := "Hello" }) ∧
    (enrich promptState 0).1.load 0 =
      some (.internalRequest { Question := "rewrite Helloin the voice of Shakespeare" }) :=
  ⟨rfl, (C1_enrich_literal_concatenation promptState 0 "Hello" rfl).2.1⟩

/-- C2: when `in` points to a wire request and the completion call succeeds
with a response holding at least one choice, `GetAnswer` returns a nil error
and a pointer to a wire response whose `Answer` is the message content of the
first choice; with question "Hello" and a stub answering "Good morrow" the
response has `Answer = "Good morrow"`. -/
theorem C2_success_returns_first_choice (client : openai.Client) (s : State) (inp : Nat)
    (r : pb.GetAnswerRequest) (choice : openai.ChatCompletionChoice)
    (rest : List openai.ChatCompletionChoice)
    (hin : s.load inp = some (.pbRequest r))
    (hcall : client.CreateChatCompletion (chatCompletionRequest (enrichedQuestion r.Question))
      = ({ Choices := choice :: rest }, none)) :
    (∃ proto, (GetAnswer client s inp).2 = .ret (some proto, none) ∧
      (GetAnswer client s inp).1.load proto
        = some (.pbResponse { Answer := choice.Message.Content })) ∧
    (∃ proto, (GetAnswer goodMorrowClient helloState 0).2 = .ret (some proto, none) ∧
      (GetAnswer goodMorrowClient helloState 0).1.load proto
        = some (.pbResponse { Answer := "Good morrow" })) := by
  refine ⟨⟨s.heap.length + 2, ?_, ?_⟩, ⟨3, rfl, rfl⟩⟩
  · rw [GetAnswer_eq client hin, hcall]
  · rw [GetAnswer_eq client hin, hcall]
    have := State.load_alloc_new ((afterRequest s r.Question).alloc
      (.internalResponse { Answer := choice.Message.Content })).1
      (.pbResponse { Answer := choice.Message.Content })
    simpa [afterRequest, afterCall, State.store, State.alloc] using this

/-- Witness of C2 on the "Hello" request with the "Good morrow" stub. -/
theorem C2_success_returns_first_choice_witness :
    helloState.load 0 = some (.pbRequest { Question := "Hello" }) ∧
    goodMorrowClient.CreateChatCompletion (chatCompletionRequest (enrichedQuestion "Hello"))
      = ({ Choices := [{ Message := { Role := "assistant", Content := "Good morrow" } }] },
          none) ∧
    ∃ proto, (GetAnswer goodMorrowClient helloState 0).2 = .ret (some proto, none) ∧
      (GetAnswer goodMorrowClient helloState 0).1.load proto
        = some (.pbResponse { Answer := "Good morrow" }) :=
  ⟨rfl, rfl,
   (C2_success_returns_first_choice goodMorrowClient helloState 0 { Question := "Hello" }
    { Message := { Role := "assistant", Content := "Good morrow" } } [] rfl rfl).1⟩

/-- C3: when `in` points to a wire request and the completion call returns an
error `e`, `GetAnswer` returns a nil response together with the one error built
from the fixed text "failed making your text Shakespearean"; the returned pair
is the same for any two requests, clients and client errors, so it carries
nothing of `e` (whose text goes to standard output only). -/
theorem C3_client_error_gives_fixed_error (client1 client2 : openai.Client) (s1 s2 : State)
    (inp1 inp2 : Nat) (r1 r2 : pb.GetAnswerRequest) (e1 e2 : GoError)
    (resp1 resp2 : openai.ChatCompletionResponse)
    (hin1 : s1.load inp1 = some (.pbRequest r1))
    (hin2 : s2.load inp2 = some (.pbRequest r2))
    (hcall1 : client1.CreateChatCompletion (chatCompletionRequest (enrichedQuestion r1.Question))
      = (resp1, some e1))
    (hcall2 : client2.CreateChatCompletion (chatCompletionRequest (enrichedQuestion r2.Question))
      = (resp2, some e2)) :
    (GetAnswer client1 s1 inp1).2
      = .ret (none, some (errors.New "failed making your text Shakespearean")) ∧
    (GetAnswer client1 s1 inp1).2 = (GetAnswer client2 s2 inp2).2 ∧
    (GetAnswer client1 s1 inp1).1.stdout
      = s1.stdout ++ ["ChatCompletion error: " ++ e1.Error ++ "\n"] := by
  rw [GetAnswer_eq client1 hin1, GetAnswer_eq client2 hin2, hcall1, hcall2]
  exact ⟨rfl, rfl, rfl⟩

/-- Witness of C3 on two stubs failing with different errors. -/
theorem C3_client_error_gives_fixed_error_witness :
    helloState.load 0 = some (.pbRequest { Question := "Hello" }) ∧
    (failingClient ⟨"connection refused"⟩).CreateChatCompletion
        (chatCompletionRequest (enrichedQuestion "Hello"))
      = ({ Choices := [] }, some ⟨"connection refused"⟩) ∧
    (failingClient ⟨"status code: 401"⟩).CreateChatCompletion
        (chatCompletionRequest (enrichedQuestion "Hello"))
      = ({ Choices := [] }, some ⟨"status code: 401"⟩) ∧
    (GetAnswer (failingClient ⟨"connection refused"⟩) helloState 0).2
      = .ret (none, some (errors.New "failed making your text Shakespearean")) ∧
    (GetAnswer (failingClient ⟨"connection refused"⟩) helloState 0).2
      = (GetAnswer (failingClient ⟨"status code: 401"⟩) helloState 0).2 ∧
    (GetAnswer (failingClient ⟨"connection refused"⟩) helloState 0).1.stdout
      = helloState.stdout ++ ["ChatCompletion error: " ++ "connection refused" ++ "\n"] :=
  ⟨rfl, rfl, rfl,
   C3_client_error_gives_fixed_error (failingClient ⟨"connection refused"⟩)
      (failingClient ⟨"status code: 401"⟩) helloState helloState 0 0 { Question := "Hello" }
      { Question := "Hello" } ⟨"connection refused"⟩ ⟨"status code: 401"⟩ { Choices := [] }
      { Choices := [] } rfl rfl rfl rfl⟩

/-- C4 (the code at the failing input): when `in` points to a wire request and
the completion call succeeds with a response holding no choice, `GetAnswer`
does not return at all: the index expression `resp.Choices[0]` of line 140
panics with an index-out-of-range run-time error, after the call was made. -/
theorem C4_no_choice_panics (client : openai.Client) (s : State) (inp : Nat)
    (r : pb.GetAnswerRequest)
    (hin : s.load inp = some (.pbRequest r))
    (hcall : client.CreateChatCompletion (chatCompletionRequest (enrichedQuestion r.Question))
      = ({ Choices := [] }, none)) :
    (GetAnswer client s inp).2
      = .panic "runtime error: index out of range [0] with length 0" ∧
    (GetAnswer client s inp).2
      ≠ .ret (none, some (errors.New "failed making your text Shakespearean")) := by
  rw [GetAnswer_eq client hin, hcall]
  exact ⟨rfl, fun h => Outcome.noConfusion h⟩

/-- C4 at the failing input: question "Hello", a client answering with no
choice and no error. -/
theorem C4_no_choice_panics_witness :
    helloState.load 0 = some (.pbRequest { Question := "Hello" }) ∧
    noChoiceClient.CreateChatCompletion (chatCompletionRequest (enrichedQuestion "Hello"))
      = ({ Choices := [] }, none) ∧
    (GetAnswer noChoiceClient helloState 0).2
      = .panic "runtime error: index out of range [0] with length 0" ∧
    (GetAnswer noChoiceClient helloState 0).2
      ≠ .ret (none, some (errors.New "failed making your text Shakespearean")) :=
  ⟨rfl, rfl, C4_no_choice_panics noChoiceClient helloState 0 { Question := "Hello" } rfl rfl⟩

/-- C5: when `in` points to a wire request with question `q`, one run of
`GetAnswer` adds exactly one call to the calls made so far, whatever the client
returns (success, error, or no choice); that call has the model
`openai.GPT3Dot5Turbo` ("gpt-3.5-turbo") and a message list of length one whose
message has the user role and content
`"rewrite " ++ q ++ "in the voice of Shakespeare"`. -/
theorem C5_exactly_one_outbound_call (client : openai.Client) (s : State) (inp : Nat)
    (r : pb.GetAnswerRequest)
    (hin : s.load inp = some (.pbRequest r)) :
    ∃ request : openai.ChatCompletionRequest,
      (GetAnswer client s inp).1.calls = s.calls ++ [request] ∧
      request.Model = openai.GPT3Dot5Turbo ∧
      request.Model = "gpt-3.5-turbo" ∧
      request.Messages.length = 1 ∧
      request.Messages =
        [{ Role := "user",
           Content := "rewrite " ++ r.Question ++ "in the voice of Shakespeare" }] ∧
      openai.ChatMessageRoleUser = "user" := by
  refine ⟨chatCompletionRequest (enrichedQuestion r.Question), ?_, rfl, rfl, rfl, rfl, rfl⟩
  rw [GetAnswer_eq client hin]
  rcases client.CreateChatCompletion (chatCompletionRequest (enrichedQuestion r.Question))
    with ⟨⟨_ | ⟨choice, rest⟩⟩, _ | err⟩ <;>
    simp [afterRequest, afterCall, State.store, State.alloc]

/-- Witness of C5 on the "Hello" request with a failing stub. -/
theorem C5_exactly_one_outbound_call_witness :
    helloState.load 0 = some (.pbRequest { Question := "Hello" }) ∧
    ∃ request : openai.ChatCompletionRequest,
      (GetAnswer (failingClient ⟨"timeout"⟩) helloState 0).1.calls = [] ++ [request] ∧
      request.Model = openai.GPT3Dot5Turbo ∧
      request.Model = "gpt-3.5-turbo" ∧
      request.Messages.length = 1 ∧
      request.Messages =
        [{ Role := "user",
           Content := "rewrite " ++ "Hello" ++ "in the voice of Shakespeare" }] ∧
      openai.ChatMessageRoleUser = "user" :=
  ⟨rfl, C5_exactly_one_outbound_call (failingClient ⟨"timeout"⟩) helloState 0
    { Question := "Hello" } rfl⟩

/-- C6: if `GPT_API_KEY` is unset or empty in the environment as `setupEnv`
leaves it (after the optional `.env` loading), `main` ends in `log.Fatal`
(exit status 1) with no listen socket opened, no client handle built and the
variable `client` still nil; and whenever a listen step occurs, `setupEnv` has
returned a client built from the non-empty key, right before it. -/
theorem C6_missing_key_is_fatal_before_listen (h : Host) :
    (os.Getenv (setupEnv h h.start).1.environ "GPT_API_KEY" = "" →
      (main h).2 = .exit 1 ∧
      (∃ msg, (main h).1.trace.getLast? = some (Event.logFatal msg)) ∧
      (∀ n a, Event.listen n a ∉ (main h).1.trace) ∧
      (∀ k, Event.newClient k ∉ (main h).1.trace) ∧
      (main h).1.client = none) ∧
    (∀ n a, Event.listen n a ∈ (main h).1.trace →
      ∃ k pre post, k ≠ "" ∧
        k = os.Getenv (setupEnv h h.start).1.environ "GPT_API_KEY" ∧
        (setupEnv h h.start).2 = .ret (openai.NewClient k) ∧
        (main h).1.client = some (openai.NewClient k) ∧
        (main h).1.trace = pre ++ Event.newClient k :: Event.listen n a :: post ∧
        (∀ n0 a0, Event.listen n0 a0 ∉ pre)) := by
  by_cases hlive : os.Getenv h.environ "environment" = "live"
  · by_cases hkey : os.Getenv h.environ "GPT_API_KEY" = ""
    · simp [main, setupEnv, logFatal, Host.start, hlive, hkey]
    · rcases hl : h.netListen "tcp" (":" ++ toString h.port) with _ | err
      · rcases hs : h.serve with _ | err2
        · simp [main, setupEnv, logFatal, Host.start, hlive, hkey, hl, hs]
          exact ⟨_, hkey, rfl, rfl, [], ⟨_, rfl⟩, by simp⟩
        · simp [main, setupEnv, logFatal, Host.start, hlive, hkey, hl, hs]
          exact ⟨_, hkey, rfl, rfl, [], ⟨_, rfl⟩, by simp⟩
      · simp [main, setupEnv, logFatal, Host.start, hlive, hkey, hl]
        exact ⟨_, hkey, rfl, rfl, [], ⟨_, rfl⟩, by simp⟩
  · rcases hload : h.dotenvLoad h.environ with ⟨environ, _ | lerr⟩
    · by_cases hkey : os.Getenv environ "GPT_API_KEY" = ""
      · simp [main, setupEnv, logFatal, Host.start, hlive, hkey, hload]
      · rcases hl : h.netListen "tcp" (":" ++ toString h.port) with _ | err
        · rcases hs : h.serve with _ | err2
          · simp [main, setupEnv, logFatal, Host.start, hlive, hkey, hl, hs, hload]
            exact ⟨_, hkey, rfl, rfl, [Event.dotenvLoad], ⟨_, rfl⟩, by simp⟩
          · simp [main, setupEnv, logFatal, Host.start, hlive, hkey, hl, hs, hload]
            exact ⟨_, hkey, rfl, rfl, [Event.dotenvLoad], ⟨_, rfl⟩, by simp⟩
        · simp [main, setupEnv, logFatal, Host.start, hlive, hkey, hl, hload]
          exact ⟨_, hkey, rfl, rfl, [Event.dotenvLoad], ⟨_, rfl⟩, by simp⟩
    · simp [main, setupEnv, logFatal, Host.start, hlive, hload]

/-- Witness of C6: a host with `environment=live` and no `GPT_API_KEY` exits
before listening; a host with `GPT_API_KEY=sk-test` listens after building the
client from that key. -/
theorem C6_missing_key_is_fatal_before_listen_witness :
    (os.Getenv (setupEnv hostWithoutKey hostWithoutKey.start).1.environ "GPT_API_KEY" = "" ∧
      (main hostWithoutKey).2 = .exit 1 ∧
      (∀ n a, Event.listen n a ∉ (main hostWithoutKey).1.trace) ∧
      (∀ k, Event.newClient k ∉ (main hostWithoutKey).1.trace)) ∧
    (Event.listen "tcp" ":50051" ∈ (main hostWithKey).1.trace ∧
      ∃ k pre post, k ≠ "" ∧
        k = os.Getenv (setupEnv hostWithKey hostWithKey.start).1.environ "GPT_API_KEY" ∧
        (setupEnv hostWithKey hostWithKey.start).2 = .ret (openai.NewClient k) ∧
        (main hostWithKey).1.client = some (openai.NewClient k) ∧
        (main hostWithKey).1.trace
          = pre ++ Event.newClient k :: Event.listen "tcp" ":50051" :: post ∧
        (∀ n0 a0, Event.listen n0 a0 ∉ pre)) :=
  ⟨⟨rfl,
    ((C6_missing_key_is_fatal_before_listen hostWithoutKey).1 rfl).1,
    ((C6_missing_key_is_fatal_before_listen hostWithoutKey).1 rfl).2.2.1,
    ((C6_missing_key_is_fatal_before_listen hostWithoutKey).1 rfl).2.2.2.1⟩,
   ⟨by decide,
    (C6_missing_key_is_fatal_before_listen hostWithKey).2 "tcp" ":50051" (by decide)⟩⟩

/-- C8: when `in` points to a wire request, `GetAnswer` leaves that request as
it was, and every other object that existed before the call as well; the
object it overwrites with the enriched prompt is the internal copy that
`protoToInternalGetAnswerRequest` allocated at the first free address.
`sendToChatGPT` itself does overwrite the `Question` of the request it is
given. -/
theorem C8_wire_request_unchanged (client : openai.Client) (s : State) (inp : Nat)
    (r : pb.GetAnswerRequest)
    (hin : s.load inp = some (.pbRequest r)) :
    (GetAnswer client s inp).1.load inp = some (.pbRequest r) ∧
    (∀ p o, s.load p = some o → (GetAnswer client s inp).1.load p = some o) ∧
    (GetAnswer client s inp).1.load s.heap.length
      = some (.internalRequest
          { Question := "rewrite " ++ r.Question ++ "in the voice of Shakespeare" }) ∧
    (∀ (s0 : State) (req : Nat) (q : String),
      s0.load req = some (.internalRequest { Question := q }) →
      (sendToChatGPT s0 req client).1.load req
        = some (.internalRequest
            { Question := "rewrite " ++ q ++ "in the voice of Shakespeare" })) := by
  have hold : ∀ p o, s.load p = some o → (GetAnswer client s inp).1.load p = some o := by
    intro p o hp
    have hlt := State.load_lt hp
    have hp2 : s.heap[p]? = some o := hp
    rw [GetAnswer_eq client hin]
    rcases client.CreateChatCompletion (chatCompletionRequest (enrichedQuestion r.Question))
      with ⟨⟨_ | ⟨choice, rest⟩⟩, _ | err⟩ <;>
      simp [afterRequest, afterCall, State.store, State.alloc, State.load,
        List.getElem?_append_left hlt, hp2]
  refine ⟨hold inp _ hin, hold, ?_, ?_⟩
  · rw [GetAnswer_eq client hin]
    rcases client.CreateChatCompletion (chatCompletionRequest (enrichedQuestion r.Question))
      with ⟨⟨_ | ⟨choice, rest⟩⟩, _ | err⟩ <;>
      simp only [afterRequest, afterCall, State.store, State.alloc, State.load,
        enrichedQuestion, List.set_append_right _ _ (Nat.le_refl _), Nat.sub_self, List.set_cons_zero,
        List.append_assoc, List.singleton_append, List.cons_append, getElem?_append_length_cons]
  · intro s0 req q hreq
    have hlt := State.load_lt hreq
    rw [sendToChatGPT_eq client hreq]
    rcases client.CreateChatCompletion (chatCompletionRequest (enrichedQuestion q))
      with ⟨⟨_ | ⟨choice, rest⟩⟩, _ | err⟩ <;>
      simp [afterCall, State.store, State.alloc, State.load, enrichedQuestion, hlt,
        List.getElem?_append_left]

/-- Witness of C8 on the "Hello" request with the "Good morrow" stub. -/
theorem C8_wire_request_unchanged_witness :
    helloState.load 0 = some (.pbRequest { Question := "Hello" }) ∧
    (GetAnswer goodMorrowClient helloState 0).1.load 0
      = some (.pbRequest { Question := "Hello" }) ∧
    (GetAnswer goodMorrowClient helloState 0).1.load 1
      = some (.internalRequest
          { Question := "rewrite " ++ "Hello" ++ "in the voice of Shakespeare" }) ∧
    promptState.load 0 = some (.internalRequest { Question := "Hello" }) ∧
    (sendToChatGPT promptState 0 goodMorrowClient).1.load 0
      = some (.internalRequest
          { Question := "rewrite " ++ "Hello" ++ "in the voice of Shakespeare" }) :=
  ⟨rfl,
   (C8_wire_request_unchanged goodMorrowClient helloState 0 { Question := "Hello" } rfl).1,
   (C8_wire_request_unchanged goodMorrowClient helloState 0 { Question := "Hello" } rfl).2.2.1,
   rfl,
   (C8_wire_request_unchanged goodMorrowClient helloState 0 { Question := "Hello" } rfl).2.2.2
     promptState 0 "Hello" rfl⟩

/-- C9: the enrichment is injective in the question and never idempotent: on a
request whose `Question` is `q`, running `enrich` twice leaves a `Question`
different from the one a single run leaves, and each run makes the text exactly
35 bytes longer (8 for "rewrite " and 27 for "in the voice of Shakespeare"). -/
theorem C9_enrich_injective_never_idempotent (s : State) (req : Nat) (q : String)
    (hreq : s.load req = some (.internalRequest { Question := q })) :
    Function.Injective enrichedQuestion ∧
    (enrich s req).1.load req = some (.internalRequest { Question := enrichedQuestion q }) ∧
    (enrich (enrich s req).1 req).1.load req
      = some (.internalRequest { Question := enrichedQuestion (enrichedQuestion q) }) ∧
    enrichedQuestion (enrichedQuestion q) ≠ enrichedQuestion q ∧
    (enrichedQuestion q).utf8ByteSize = q.utf8ByteSize + 35 ∧
    (enrichedQuestion (enrichedQuestion q)).utf8ByteSize
      = (enrichedQuestion q).utf8ByteSize + 35 ∧
    "rewrite ".utf8ByteSize = 8 ∧
    "in the voice of Shakespeare".utf8ByteSize = 27 := by
  have h1 : (enrich s req).1.load req
      = some (.internalRequest { Question := enrichedQuestion q }) := by
    rw [enrich_eq hreq]
    exact State.load_store_same _ hreq
  have h2 : (enrich (enrich s req).1 req).1.load req
      = some (.internalRequest { Question := enrichedQuestion (enrichedQuestion q) }) := by
    rw [enrich_eq h1]
    exact State.load_store_same _ h1
  refine ⟨enrichedQuestion_injective, h1, h2, ?_, enrichedQuestion_utf8ByteSize q,
    enrichedQuestion_utf8ByteSize _, by decide, by decide⟩
  intro h
  have := congrArg String.utf8ByteSize h
  rw [enrichedQuestion_utf8ByteSize] at this
  omega

/-- Witness of C9 on the request holding "Hello". -/
theorem C9_enrich_injective_never_idempotent_witness :
    promptState.load 0 = some (.internalRequest { Question := "Hello" }) ∧
    (enrich (enrich promptState 0).1 0).1.load 0
      = some (.internalRequest { Question := enrichedQuestion (enrichedQuestion "Hello") }) ∧
    enrichedQuestion (enrichedQuestion "Hello") ≠ enrichedQuestion "Hello" :=
  ⟨rfl, (C9_enrich_injective_never_idempotent promptState 0 "Hello" rfl).2.2.1,
   (C9_enrich_injective_never_idempotent promptState 0 "Hello" rfl).2.2.2.1⟩

/-- C10: the wire/internal mappers are mutually inverse on their single field.
Mapping a wire request to internal and back gives a wire request with the same
`Question`; mapping an internal request to wire and back gives an internal
request with the same `Question`; and the same holds for `Answer` with the two
response mappers, in both orders. -/
theorem C10_mappers_mutually_inverse (s : State) (p : Nat) :
    (∀ r : pb.GetAnswerRequest, s.load p = some (.pbRequest r) →
      ∃ a b r2, (protoToInternalGetAnswerRequest s p).2 = .ret a ∧
        (internalGetAnswerRequestToProto (protoToInternalGetAnswerRequest s p).1 a).2 = .ret b ∧
        (internalGetAnswerRequestToProto (protoToInternalGetAnswerRequest s p).1 a).1.load b
          = some (.pbRequest r2) ∧
        r2.Question = r.Question) ∧
    (∀ r : internalGetAnswerRequest, s.load p = some (.internalRequest r) →
      ∃ a b r2, (internalGetAnswerRequestToProto s p).2 = .ret a ∧
        (protoToInternalGetAnswerRequest (internalGetAnswerRequestToProto s p).1 a).2 = .ret b ∧
        (protoToInternalGetAnswerRequest (internalGetAnswerRequestToProto s p).1 a).1.load b
          = some (.internalRequest r2) ∧
        r2.Question = r.Question) ∧
    (∀ r : internalGetAnswerResponse, s.load p = some (.internalResponse r) →
      ∃ a b r2, (internalGetAnswerResponseToProto s p).2 = .ret a ∧
        (protoToInternalGetAnswerResponse (internalGetAnswerResponseToProto s p).1 a).2 = .ret b ∧
        (protoToInternalGetAnswerResponse (internalGetAnswerResponseToProto s p).1 a).1.load b
          = some (.internalResponse r2) ∧
        r2.Answer = r.Answer) ∧
    (∀ r : pb.GetAnswerResponse, s.load p = some (.pbResponse r) →
      ∃ a b r2, (protoToInternalGetAnswerResponse s p).2 = .ret a ∧
        (internalGetAnswerResponseToProto (protoToInternalGetAnswerResponse s p).1 a).2 = .ret b ∧
        (internalGetAnswerResponseToProto (protoToInternalGetAnswerResponse s p).1 a).1.load b
          = some (.pbResponse r2) ∧
        r2.Answer = r.Answer) := by
  refine ⟨?_, ?_, ?_, ?_⟩
  · intro r h
    have h1 := State.load_alloc_new s (.internalRequest { Question := r.Question })
    refine ⟨s.heap.length, (s.alloc (.internalRequest { Question := r.Question })).1.heap.length,
      { Question := r.Question }, ?_, ?_, ?_, rfl⟩
    · rw [protoToInternalGetAnswerRequest_eq h]
    · rw [protoToInternalGetAnswerRequest_eq h, internalGetAnswerRequestToProto_eq h1]
    · rw [protoToInternalGetAnswerRequest_eq h, internalGetAnswerRequestToProto_eq h1]
      exact State.load_alloc_new _ _
  · intro r h
    have h1 := State.load_alloc_new s (.pbRequest { Question := r.Question })
    refine ⟨s.heap.length, (s.alloc (.pbRequest { Question := r.Question })).1.heap.length,
      { Question := r.Question }, ?_, ?_, ?_, rfl⟩
    · rw [internalGetAnswerRequestToProto_eq h]
    · rw [internalGetAnswerRequestToProto_eq h, protoToInternalGetAnswerRequest_eq h1]
    · rw [internalGetAnswerRequestToProto_eq h, protoToInternalGetAnswerRequest_eq h1]
      exact State.load_alloc_new _ _
  · intro r h
    have h1 := State.load_alloc_new s (.pbResponse { Answer := r.Answer })
    refine ⟨s.heap.length, (s.alloc (.pbResponse { Answer := r.Answer })).1.heap.length,
      { Answer := r.Answer }, ?_, ?_, ?_, rfl⟩
    · rw [internalGetAnswerResponseToProto_eq h]
    · rw [internalGetAnswerResponseToProto_eq h, protoToInternalGetAnswerResponse_eq h1]
    · rw [internalGetAnswerResponseToProto_eq h, protoToInternalGetAnswerResponse_eq h1]
      exact State.load_alloc_new _ _
  · intro r h
    have h1 := State.load_alloc_new s (.internalResponse { Answer := r.Answer })
    refine ⟨s.heap.length, (s.alloc (.internalResponse { Answer := r.Answer })).1.heap.length,
      { Answer := r.Answer }, ?_, ?_, ?_, rfl⟩
    · rw [protoToInternalGetAnswerResponse_eq h]
    · rw [protoToInternalGetAnswerResponse_eq h, internalGetAnswerResponseToProto_eq h1]
    · rw [protoToInternalGetAnswerResponse_eq h, internalGetAnswerResponseToProto_eq h1]
      exact State.load_alloc_new _ _

/-- Witness of C10: each of the four round trips on a one-object heap. -/
theorem C10_mappers_mutually_inverse_witness :
    (helloState.load 0 = some (.pbRequest { Question := "Hello" }) ∧
      ∃ a b r2, (protoToInternalGetAnswerRequest helloState 0).2 = .ret a ∧
        (internalGetAnswerRequestToProto (protoToInternalGetAnswerRequest helloState 0).1 a).2
          = .ret b ∧
        (internalGetAnswerRequestToProto
            (protoToInternalGetAnswerRequest helloState 0).1 a).1.load b
          = some (.pbRequest r2) ∧
        r2.Question = "Hello") ∧
    (promptState.load 0 = some (.internalRequest { Question := "Hello" }) ∧
      ∃ a b r2, (internalGetAnswerRequestToProto promptState 0).2 = .ret a ∧
        (protoToInternalGetAnswerRequest (internalGetAnswerRequestToProto promptState 0).1 a).2
          = .ret b ∧
        (protoToInternalGetAnswerRequest
            (internalGetAnswerRequestToProto promptState 0).1 a).1.load b
          = some (.internalRequest r2) ∧
        r2.Question = "Hello") ∧
    (answerState.load 0 = some (.internalResponse { Answer := "Good morrow" }) ∧
      ∃ a b r2, (internalGetAnswerResponseToProto answerState 0).2 = .ret a ∧
        (protoToInternalGetAnswerResponse (internalGetAnswerResponseToProto answerState 0).1 a).2
          = .ret b ∧
        (protoToInternalGetAnswerResponse
            (internalGetAnswerResponseToProto answerState 0).1 a).1.load b
          = some (.internalResponse r2) ∧
        r2.Answer = "Good morrow") ∧
    (replyState.load 0 = some (.pbResponse { Answer := "Good morrow" }) ∧
      ∃ a b r2, (protoToInternalGetAnswerResponse replyState 0).2 = .ret a ∧
        (internalGetAnswerResponseToProto (protoToInternalGetAnswerResponse replyState 0).1 a).2
          = .ret b ∧
        (internalGetAnswerResponseToProto
            (protoToInternalGetAnswerResponse replyState 0).1 a).1.load b
          = some (.pbResponse r2) ∧
        r2.Answer = "Good morrow") :=
  ⟨⟨rfl, (C10_mappers_mutually_inverse helloState 0).1 { Question := "Hello" } rfl⟩,
   ⟨rfl, (C10_mappers_mutually_inverse promptState 0).2.1 { Question := "Hello" } rfl⟩,
   ⟨rfl, (C10_mappers_mutually_inverse answerState 0).2.2.1 { Answer := "Good morrow" } rfl⟩,
   ⟨rfl, (C10_mappers_mutually_inverse replyState 0).2.2.2 { Answer := "Good morrow" } rfl⟩⟩

end ShakespeareBot
